import Mathlib

/-!
Shallow embedding of `cpp/src/io/utilities/file_io_utilities.cpp`:
the cuFile-accelerated file I/O layer of cuDF (file wrapper, cuFile
configuration rewrite, cuFile shim singleton, sliced read/write paths,
and the factory functions), together with theorems settling the spec's
claims about it.
-/

namespace Cudf

/-! ## Sliced transfer partitioning (`make_sliced_tasks`) -/

/-- `max_slice_bytes` from `make_sliced_tasks`: 4 MiB. -/
def max_slice_bytes : Nat := 4 * 1024 * 1024

/-- Modelled from the spec: `cudf::util::div_rounding_up_safe` lives in
`integer_utils.hpp`, which is not part of the excerpt; the spec states the
slice count is `ceil(size / 4MiB)`, i.e. the quotient plus one when a
remainder exists. -/
def div_rounding_up_safe (dividend divisor : Nat) : Nat :=
  dividend / divisor + (if dividend % divisor = 0 then 0 else 1)

/-- One slice produced by `make_sliced_tasks`: the offset of the slice
inside the host/device buffer (`ptr + slice_offset`), the slice length,
and the file offset (`offset + slice_offset`). -/
structure Slice where
  ptr_off : Nat
  len : Nat
  file_off : Nat
deriving DecidableEq, Repr

/-- The loop body of `make_sliced_tasks`: iterates `t` from `0` to
`n_slices - 1`, the slice size being `max_slice_bytes` except on the last
iteration, where it is `size % max_slice_bytes`; `slice_offset`
accumulates the slice sizes.  The first argument is fuel, instantiated
with `n_slices` so the loop runs exactly `n_slices - t` times. -/
def sliceLoop (offset size n_slices : Nat) : Nat → Nat → Nat → List Slice
  | 0, _, _ => []
  | fuel + 1, t, slice_offset =>
    if t < n_slices then
      let slice_size := if t = n_slices - 1 then size % max_slice_bytes else max_slice_bytes
      { ptr_off := slice_offset, len := slice_size, file_off := offset + slice_offset } ::
        sliceLoop offset size n_slices fuel (t + 1) (slice_offset + slice_size)
    else []

/-- `make_sliced_tasks` (file_io_utilities.cpp, lines 188-204): partition a
transfer of `size` bytes at file offset `offset` into
`div_rounding_up_safe size max_slice_bytes` slices. -/
def make_sliced_tasks (offset size : Nat) : List Slice :=
  let n_slices := div_rounding_up_safe size max_slice_bytes
  sliceLoop offset size n_slices n_slices 0 0

/-! ## Futures

The worker pool (`cudf::detail::thread_pool`, declared outside the
excerpt) runs each submitted task and stores its result — or the
exception it threw — in the `std::future` returned by `submit`.  A
future is therefore modelled as a stored `Except` outcome. -/

/-- A ready `std::future`: holds the task's value or its stored exception. -/
structure CppFuture (α : Type) where
  result : Except String α

/-- `std::future::get`: returns the stored value, or rethrows the stored
exception. -/
def CppFuture.get {α : Type} (f : CppFuture α) : Except String α := f.result

/-- `std::future::wait`: blocks until the shared state is ready and then
returns normally; per the C++ standard it never rethrows the stored
exception (only `get` does). -/
def CppFuture.wait {α : Type} (_f : CppFuture α) : Except String Unit := Except.ok ()

/-! ## Read path (`cufile_input_impl::read_async`) -/

/-- The `read_slice` lambda of `read_async` (lines 216-222): calls the
backend read entry point (modelled as a function from slice size and file
offset to the returned `ssize_t`) and throws unless the result is not
`-1`. -/
def read_slice (gds_read : Nat → Nat → Int) (size offset : Nat) : Except String Int :=
  let read_size := gds_read size offset
  if read_size = -1 then Except.error "cuFile error reading from a file" else Except.ok read_size

/-- `cufile_input_impl::read_async` (lines 208-234): submit one
`read_slice` task per slice, and return a deferred future whose waiter
sums `task.get()` over the slice tasks (so any stored slice exception
propagates out of the wait). -/
def read_async_result (gds_read : Nat → Nat → Int) (offset size : Nat) : Except String Int :=
  let slice_tasks := (make_sliced_tasks offset size).map
    (fun s => CppFuture.mk (read_slice gds_read s.len s.file_off))
  slice_tasks.foldl (fun sum task => sum >>= fun a => (CppFuture.get task).map (fun v => a + v))
    (Except.ok 0)

/-! ## Write path (`cufile_output_impl::write_async`) -/

/-- The `write_slice` lambda of `write_async` (lines 262-268): calls the
backend write entry point and throws unless the reported count is not
`-1` and equals the requested slice size. -/
def write_slice (gds_write : Nat → Nat → Int) (size offset : Nat) : Except String Unit :=
  let write_size := gds_write size offset
  if write_size != -1 && write_size == (size : Int) then Except.ok ()
  else Except.error "cuFile error writing to a file"

/-- `cufile_output_impl::write_async` (lines 257-282): submit one
`write_slice` task per slice, and return a deferred future whose waiter
merely calls `task.wait()` on each slice task (`wait`, not `get`). -/
def write_async_result (gds_write : Nat → Nat → Int) (offset size : Nat) : Except String Unit :=
  let slice_tasks := (make_sliced_tasks offset size).map
    (fun s => CppFuture.mk (write_slice gds_write s.len s.file_off))
  slice_tasks.foldl (fun acc task => acc >>= fun _ => CppFuture.wait task) (Except.ok ())

/-! ## Backend policy (`cufile_config`) -/

/-- Modelled from the spec: the policy mode parsed from the
`LIBCUDF_CUFILE_POLICY` environment variable (the parsing helpers live in
`config_utils.hpp`, outside the excerpt): off, enabled-optional, or
enabled-required. -/
inductive PolicyMode
  | off
  | optional
  | required
deriving DecidableEq, Repr

/-- Modelled from the spec: `is_enabled()` means the mode is not off. -/
def PolicyMode.is_enabled : PolicyMode → Bool
  | .off => false
  | .optional => true
  | .required => true

/-- Modelled from the spec: `is_required()` means the mode is required. -/
def PolicyMode.is_required : PolicyMode → Bool
  | .required => true
  | _ => false

/-- The process environment, as an association list of variable names to
values. -/
abbrev Env := List (String × String)

/-- `getenv`: the value of `name` in the environment, if set. -/
def getenvOpt (env : Env) (name : String) : Option String := env.lookup name

/-- `setenv(name, value, 0)`: sets `name` to `value` only when `name` is
not already present (the overwrite flag is `0`). -/
def setenv_overwrite0 (env : Env) (name value : String) : Env :=
  match env.lookup name with
  | some _ => env
  | none => (name, value) :: env

/-- The tag searched for on each config line:
`"allow_compat_mode"` (quotes included). -/
def compat_tag : String := "\"allow_compat_mode\""

/-- Whether the first character list is an initial segment of the second. -/
def beginsWith : List Char → List Char → Bool
  | [], _ => true
  | _ :: _, [] => false
  | c :: cs, d :: ds => c == d && beginsWith cs ds

/-- Whether the pattern occurs as a contiguous run of the second list. -/
def occursIn (pat : List Char) : List Char → Bool
  | [] => beginsWith pat []
  | s@(_ :: rest) => beginsWith pat s || occursIn pat rest

/-- `line.find(tag) != std::string::npos`: the tag occurs somewhere in
the line. -/
def string_find_hit (line tag : String) : Bool := occursIn tag.data line.data

/-- The per-line rewrite of the `cufile_config` constructor (lines 64-73):
when the line contains `compat_tag` (`line.find(tag) != npos`), the whole
line is replaced by the tag, a colon, and `true`/`false` according to
`is_required()`; otherwise the line is copied verbatim. -/
def rewrite_line (required : Bool) (line : String) : String :=
  if string_find_hit line compat_tag then
    compat_tag ++ ": " ++ (if required then "true" else "false") ++ ","
  else line

/-- The `while (std::getline(...))` loop of the `cufile_config`
constructor (lines 65-78): for each input line, append the rewritten line
to the output file and call `setenv(json_path_env_var, cudf_config_path, 0)`
(the `setenv` sits inside the loop body, so it runs once per line). -/
def cufile_config_loop (required : Bool) (jvar cudf_config_path : String) :
    List String → List String → Env → List String × Env
  | [], out, env => (out, env)
  | line :: rest, out, env =>
    cufile_config_loop required jvar cudf_config_path rest
      (out ++ [rewrite_line required line])
      (setenv_overwrite0 env jvar cudf_config_path)

/-- The enabled branch of the `cufile_config` constructor: process the
user config file's lines starting from an empty output file, returning
the rewritten lines and the final environment. -/
def cufile_config_rewrite (required : Bool) (jvar cudf_config_path : String)
    (lines : List String) (env : Env) : List String × Env :=
  cufile_config_loop required jvar cudf_config_path lines [] env

/-- The `cufile_config` constructor (lines 54-80): the rewrite happens
only when `is_enabled()`; otherwise no output file is produced and the
environment is untouched. -/
def cufile_config_ctor (mode : PolicyMode) (jvar cudf_config_path : String)
    (lines : List String) (env : Env) : Option (List String) × Env :=
  if mode.is_enabled then
    let r := cufile_config_rewrite mode.is_required jvar cudf_config_path lines env
    (some r.1, r.2)
  else (none, env)

/-! ## File wrapper (`file_wrapper`, `get_file_size`)

OS interaction is modelled by a record of outcomes: the result of the
`open` syscall for the constructor's path and flags, and whether/what
`fstat` reports per descriptor.  A table of currently open descriptors
tracks resource ownership. -/

/-- Outcomes of the OS calls made by `file_wrapper`: `open_ret` is the
descriptor returned by `open` (`-1` on failure); `fstat_ok fd` says
whether `fstat(fd, ...)` succeeds (POSIX: it fails on an invalid
descriptor such as `-1`); `fstat_size fd` is the reported size. -/
structure OsWorld where
  open_ret : Int
  fstat_ok : Int → Bool
  fstat_size : Int → Nat

/-- The set of descriptors currently open in the process. -/
structure FdState where
  open_fds : List Int
deriving DecidableEq, Repr

/-- A fully constructed `file_wrapper`: descriptor and cached size. -/
structure FileWrapperObj where
  fd : Int
  size : Nat
deriving DecidableEq, Repr

/-- `get_file_size` (lines 31-36): `fstat` the descriptor and throw
`"Cannot query file size"` when it fails. -/
def get_file_size (w : OsWorld) (fd : Int) : Except String Nat :=
  if w.fstat_ok fd then Except.ok (w.fstat_size fd) else Except.error "Cannot query file size"

/-- `file_wrapper::file_wrapper` (lines 38-48): the member-initializer
list first runs `fd(open(filepath, flags))` and then
`_size{get_file_size(fd)}`; only afterwards does the constructor body
check `fd != -1` and throw `"Cannot open file " + filepath`.  An
exception thrown from the initializer list means the object is never
constructed, so its destructor never runs and an already-opened
descriptor stays open. -/
def file_wrapper_construct (w : OsWorld) (filepath : String) (st : FdState) :
    Except String FileWrapperObj × FdState :=
  let fd := w.open_ret
  let st1 : FdState := if fd = -1 then st else { open_fds := fd :: st.open_fds }
  match get_file_size w fd with
  | Except.error e => (Except.error e, st1)
  | Except.ok sz =>
    if fd = -1 then (Except.error ("Cannot open file " ++ filepath), st1)
    else (Except.ok { fd := fd, size := sz }, st1)

/-- `file_wrapper::~file_wrapper` (line 50): `close(fd)`. -/
def file_wrapper_destroy (obj : FileWrapperObj) (st : FdState) : FdState :=
  { open_fds := st.open_fds.erase obj.fd }

/-! ## cuFile shim (`cufile_shim`)

Dynamic loading is modelled by a record of outcomes of `dlopen`/`dlsym`
and of the driver-open call.  Pointers are `Option Nat`: `none` is the
null pointer. -/

/-- Outcomes of the loader calls made by `cufile_shim`'s constructor. -/
structure InitParams where
  dlopen_ret : Option Nat
  dlsym_fn : Option Nat → String → Option Nat
  driver_open_ok : Bool

/-- The fields of `cufile_shim` (lines 90-117); every pointer defaults to
`nullptr`, and `init_error` is the captured construction error. -/
structure ShimFields where
  cf_lib : Option Nat := none
  driver_open : Option Nat := none
  driver_close : Option Nat := none
  handle_register : Option Nat := none
  handle_deregister : Option Nat := none
  read : Option Nat := none
  write : Option Nat := none
  init_error : Option String := none

/-- `cufile_shim::is_valid` (line 99). -/
def ShimFields.is_valid (s : ShimFields) : Bool := s.init_error.isNone

/-- `cufile_shim::cufile_shim` (lines 119-143): `dlopen` the library,
resolve the six symbols in order with `CUDF_EXPECTS` after each, then
call `driver_open()`; any failure is caught and captured in
`init_error`, leaving the fields assigned so far in place. -/
def cufile_shim_construct (p : InitParams) : ShimFields :=
  let cf_lib := p.dlopen_ret
  let driver_open := p.dlsym_fn cf_lib "cuFileDriverOpen"
  if driver_open = none then
    { cf_lib := cf_lib, driver_open := driver_open,
      init_error := some "could not find cuFile cuFileDriverOpen symbol" }
  else
    let driver_close := p.dlsym_fn cf_lib "cuFileDriverClose"
    if driver_close = none then
      { cf_lib := cf_lib, driver_open := driver_open, driver_close := driver_close,
        init_error := some "could not find cuFile cuFileDriverClose symbol" }
    else
      let handle_register := p.dlsym_fn cf_lib "cuFileHandleRegister"
      if handle_register = none then
        { cf_lib := cf_lib, driver_open := driver_open, driver_close := driver_close,
          handle_register := handle_register,
          init_error := some "could not find cuFile cuFileHandleRegister symbol" }
      else
        let handle_deregister := p.dlsym_fn cf_lib "cuFileHandleDeregister"
        if handle_deregister = none then
          { cf_lib := cf_lib, driver_open := driver_open, driver_close := driver_close,
            handle_register := handle_register, handle_deregister := handle_deregister,
            init_error := some "could not find cuFile cuFileHandleDeregister symbol" }
        else
          let read := p.dlsym_fn cf_lib "cuFileRead"
          if read = none then
            { cf_lib := cf_lib, driver_open := driver_open, driver_close := driver_close,
              handle_register := handle_register, handle_deregister := handle_deregister,
              read := read,
              init_error := some "could not find cuFile cuFileRead symbol" }
          else
            let write := p.dlsym_fn cf_lib "cuFileWrite"
            if write = none then
              { cf_lib := cf_lib, driver_open := driver_open, driver_close := driver_close,
                handle_register := handle_register, handle_deregister := handle_deregister,
                read := read, write := write,
                init_error := some "could not find cuFile cuFileWrite symbol" }
            else if p.driver_open_ok then
              { cf_lib := cf_lib, driver_open := driver_open, driver_close := driver_close,
                handle_register := handle_register, handle_deregister := handle_deregister,
                read := read, write := write, init_error := none }
            else
              { cf_lib := cf_lib, driver_open := driver_open, driver_close := driver_close,
                handle_register := handle_register, handle_deregister := handle_deregister,
                read := read, write := write,
                init_error := some "Failed to initialize cuFile driver" }

/-- The validity check of `cufile_shim::instance` (lines 145-152): when
the singleton is invalid, `CUDF_FAIL("" + std::string(init_error->what()))`
raises an error whose message is the captured cause. -/
def cufile_shim_instance_check (s : ShimFields) : Except String Unit :=
  match s.init_error with
  | some cause => Except.error ("" ++ cause)
  | none => Except.ok ()

/-- The process-level behaviour of the function-local static in
`cufile_shim::instance`: the shim is constructed at the first call (from
that call's loader outcomes) and stored; every later call reuses the
stored state, so later loader outcomes are never consulted.  Returns the
per-call results and the final stored state. -/
def run_instance_calls : List InitParams → Option ShimFields →
    List (Except String Unit) × Option ShimFields
  | [], stored => ([], stored)
  | p :: rest, stored =>
    let s := match stored with
      | some s => s
      | none => cufile_shim_construct p
    let r := cufile_shim_instance_check s
    let next := run_instance_calls rest (some s)
    (r :: next.1, next.2)

/-- The observable actions of `cufile_shim::~cufile_shim` (lines
107-111): the function pointer invoked as `driver_close()` and the
handle passed to `dlclose`; the destructor reads both fields
unconditionally, with no validity check. -/
structure DtorActions where
  driver_close_called : Option Nat
  dlclose_arg : Option Nat
deriving DecidableEq, Repr

/-- `cufile_shim::~cufile_shim` (lines 107-111). -/
def cufile_shim_dtor (s : ShimFields) : DtorActions :=
  { driver_close_called := s.driver_close, dlclose_arg := s.cf_lib }

/-! ## Engine construction and factories -/

/-- `cufile_input_impl::cufile_input_impl` / `cufile_output_impl`
constructors (lines 165-171, 245-250): first `cufile_shim::instance()`
(which throws when the shim is invalid), then the registered-file setup,
whose outcome is a parameter (`file_setup`). -/
def cufile_engine_construct (s : ShimFields) (file_setup : Except String Unit) :
    Except String Unit :=
  match cufile_shim_instance_check s with
  | Except.error e => Except.error e
  | Except.ok _ => file_setup

/-- `make_cufile_input` (lines 285-297): when the policy is enabled, try
to construct the engine; on an exception rethrow it if `is_required()`,
else fall through to `return nullptr`.  When not enabled, return
`nullptr` without consulting the shim.  The boolean records whether
engine construction (and hence the shim) was touched. -/
def make_cufile_input (mode : PolicyMode) (construct : Except String Unit) :
    Except String (Option Unit) × Bool :=
  if mode.is_enabled then
    match construct with
    | Except.ok e => (Except.ok (some e), true)
    | Except.error err =>
      (if mode.is_required then Except.error err else Except.ok none, true)
  else (Except.ok none, false)

/-- `make_cufile_output` (lines 299-311): same structure as
`make_cufile_input`. -/
def make_cufile_output (mode : PolicyMode) (construct : Except String Unit) :
    Except String (Option Unit) × Bool :=
  if mode.is_enabled then
    match construct with
    | Except.ok e => (Except.ok (some e), true)
    | Except.error err =>
      (if mode.is_required then Except.error err else Except.ok none, true)
  else (Except.ok none, false)

/-! ## Theorems settling the claims -/

/-- C1: the claim says `read_async` partitions `[offset, offset+size)`
into slices whose lengths sum to `size`, so that a fully successful read
resolves to `size`.  The code computes the last slice's length as
`size % max_slice_bytes`, which is `0` whenever `size` is a positive
multiple of 4 MiB: a 4 MiB read produces a single slice of length `0`,
and the future of a fully successful read resolves to `0`, not
`4194304`.  (The `size = 0` part of the claim does hold: zero slices and
a future resolving to `0`.) -/
theorem read_slicing_drops_final_multiple :
    make_sliced_tasks 0 4194304 = [{ ptr_off := 0, len := 0, file_off := 0 }] ∧
    read_async_result (fun size _ => (size : Int)) 0 4194304 = Except.ok 0 ∧
    make_sliced_tasks 0 0 = [] ∧
    read_async_result (fun size _ => (size : Int)) 0 0 = Except.ok 0 :=
  ⟨rfl, rfl, rfl, rfl⟩

/-- C8: a read of size exactly 10 MiB at offset 0 produces exactly three
slices of sizes 4 MiB, 4 MiB and 2 MiB at consecutive offsets 0, 4 MiB
and 8 MiB; the slice lengths sum to 10485760, and when every slice
succeeds the future resolves to 10485760. -/
theorem ten_mib_three_slices :
    make_sliced_tasks 0 10485760 =
      [{ ptr_off := 0, len := 4194304, file_off := 0 },
       { ptr_off := 4194304, len := 4194304, file_off := 4194304 },
       { ptr_off := 8388608, len := 2097152, file_off := 8388608 }] ∧
    ((make_sliced_tasks 0 10485760).map Slice.len).sum = 10485760 ∧
    read_async_result (fun size _ => (size : Int)) 0 10485760 = Except.ok 10485760 :=
  ⟨rfl, rfl, rfl⟩

/-- C5: the per-slice write task does fail unless the backend reports
exactly the requested count (here a 1-byte slice with 0 bytes reported
fails), but the composed future does NOT fail: the write waiter calls
`future::wait()`, which never rethrows the stored exception, so the
composed future resolves without error even though its only slice
failed — contradicting the claim that a mismatched slice makes the
composed future fail. -/
theorem write_failure_swallowed :
    write_slice (fun _ _ => 0) 1 0 = Except.error "cuFile error writing to a file" ∧
    make_sliced_tasks 0 1 = [{ ptr_off := 0, len := 1, file_off := 0 }] ∧
    write_async_result (fun _ _ => 0) 0 1 = Except.ok () :=
  ⟨rfl, rfl, rfl⟩

/-- C4: the claim says a failed OS `open` makes construction fail with
the open error and that only a failing `fstat` on a successfully opened
descriptor yields the stat error.  In the code the member-initializer
list runs `get_file_size(fd)` on the still-unchecked descriptor before
the constructor body's `fd != -1` check, and `fstat(-1)` fails, so a
failed `open` surfaces as `"Cannot query file size"`, never as
`"Cannot open file ..."`. -/
theorem open_failure_reports_stat_error :
    (file_wrapper_construct
        { open_ret := -1, fstat_ok := fun _ => false, fstat_size := fun _ => 0 }
        "/nonexistent/file" { open_fds := [] }).1 =
      Except.error "Cannot query file size" ∧
    (file_wrapper_construct
        { open_ret := -1, fstat_ok := fun _ => false, fstat_size := fun _ => 0 }
        "/nonexistent/file" { open_fds := [] }).1 ≠
      Except.error ("Cannot open file " ++ "/nonexistent/file") := by
  refine ⟨rfl, fun hcontra => ?_⟩
  have h1 : (file_wrapper_construct
      { open_ret := -1, fstat_ok := fun _ => false, fstat_size := fun _ => 0 }
      "/nonexistent/file" { open_fds := [] }).1 =
      Except.error "Cannot query file size" := rfl
  rw [h1] at hcontra
  injection hcontra with hmsg
  exact absurd hmsg (by decide)

/-- C9: the claim says that when construction fails no open descriptor
remains.  When `open` succeeds (descriptor 5) and the subsequent `fstat`
fails, the exception is thrown from the member-initializer list, the
`file_wrapper` destructor never runs, and descriptor 5 stays in the set
of open descriptors: the descriptor is leaked. -/
theorem fd_leak_on_stat_failure :
    file_wrapper_construct
        { open_ret := 5, fstat_ok := fun _ => false, fstat_size := fun _ => 0 }
        "/some/file" { open_fds := [] } =
      (Except.error "Cannot query file size", { open_fds := [5] }) :=
  rfl

/-- The rewritten-file component of the config loop: the output is the
lines seen so far followed by the per-line rewrite of the input. -/
theorem cufile_config_loop_fst (required : Bool) (jvar path : String) :
    ∀ (lines out : List String) (env : Env),
      (cufile_config_loop required jvar path lines out env).1 =
        out ++ lines.map (rewrite_line required) := by
  intro lines
  induction lines with
  | nil => intro out env; simp [cufile_config_loop]
  | cons l ls ih => intro out env; simp [cufile_config_loop, ih]

/-- `setenv(name, value, 0)` leaves an existing value in place and
installs `value` only when the variable was unset. -/
theorem setenv_overwrite0_lookup (env : Env) (j p : String) :
    getenvOpt (setenv_overwrite0 env j p) j = some ((getenvOpt env j).getD p) := by
  unfold getenvOpt setenv_overwrite0
  cases h : env.lookup j with
  | some v => simp [h]
  | none => simp [h, List.lookup]

/-- The environment component of the config loop: an existing value of
the variable survives; an unset variable is set to the rewritten path as
soon as at least one line is processed. -/
theorem cufile_config_loop_env (required : Bool) (jvar path : String) :
    ∀ (lines out : List String) (env : Env),
      getenvOpt (cufile_config_loop required jvar path lines out env).2 jvar =
        if lines.isEmpty then getenvOpt env jvar
        else some ((getenvOpt env jvar).getD path) := by
  intro lines
  induction lines with
  | nil => intro out env; simp [cufile_config_loop]
  | cons l ls ih =>
    intro out env
    rw [cufile_config_loop, ih, setenv_overwrite0_lookup]
    cases hls : ls.isEmpty <;> cases h : getenvOpt env jvar <;> simp [h]

/-- C2 counterexample: with the policy mode required, the line holding
the compatibility key is rewritten to value `true`, not `false` as the
claim states. -/
theorem compat_mode_polarity_counterexample :
    (cufile_config_ctor .required "CUFILE_ENV_PATH_JSON" "/tmp/cudf/cufile.json"
        ["        \"allow_compat_mode\" : true,"] []).1 =
      some ["\"allow_compat_mode\": true,"] ∧
    (cufile_config_ctor .required "CUFILE_ENV_PATH_JSON" "/tmp/cudf/cufile.json"
        ["        \"allow_compat_mode\" : true,"] []).1 ≠
      some ["\"allow_compat_mode\": false,"] := by
  refine ⟨rfl, fun hcontra => ?_⟩
  have h1 : (cufile_config_ctor .required "CUFILE_ENV_PATH_JSON" "/tmp/cudf/cufile.json"
      ["        \"allow_compat_mode\" : true,"] []).1 =
      some ["\"allow_compat_mode\": true,"] := rfl
  rw [h1] at hcontra
  injection hcontra with hlist
  exact absurd hlist (by decide)

/-- C2 amended: whenever the policy observes acceleration enabled, the
config file is copied line by line, and exactly the lines containing
the compatibility-mode key are replaced by the key with value `true`
when the mode is required and `false` when the mode is optional (the
opposite polarity of the original claim); all other lines are copied
verbatim. -/
theorem compat_mode_rewrite_amended (mode : PolicyMode) (jvar path : String)
    (lines : List String) (env : Env) (hm : mode.is_enabled = true) :
    (cufile_config_ctor mode jvar path lines env).1 =
      some (lines.map (fun line =>
        if string_find_hit line compat_tag then
          compat_tag ++ ": " ++ (if mode.is_required then "true" else "false") ++ ","
        else line)) := by
  unfold cufile_config_ctor cufile_config_rewrite
  rw [hm]
  simp only [if_true]
  rw [cufile_config_loop_fst]
  simp [rewrite_line]

/-- Witness for the amended C2 theorem at a concrete enabled mode and a
concrete two-line config file. -/
theorem compat_mode_rewrite_amended_witness :
    (cufile_config_ctor .required "CUFILE_ENV_PATH_JSON" "/tmp/cudf/cufile.json"
        ["    \"allow_compat_mode\" : false,", "    \"max_direct_io_size_kb\" : 16384,"] []).1 =
      some ["\"allow_compat_mode\": true,", "    \"max_direct_io_size_kb\" : 16384,"] :=
  compat_mode_rewrite_amended .required "CUFILE_ENV_PATH_JSON" "/tmp/cudf/cufile.json"
    ["    \"allow_compat_mode\" : false,", "    \"max_direct_io_size_kb\" : 16384,"] [] rfl

/-- C7: after the rewrite (policy enabled, at least one config line
processed), the backend's configuration-path environment variable is set
to the rewritten file's path only when it was not already set: an
externally present value survives untouched (first environment), and an
absent one becomes the rewritten path (second environment). -/
theorem config_env_first_writer_wins (mode : PolicyMode) (jvar path v : String)
    (lines : List String) (env1 env2 : Env)
    (hm : mode.is_enabled = true)
    (h1 : getenvOpt env1 jvar = some v)
    (h2 : getenvOpt env2 jvar = none)
    (h3 : lines ≠ []) :
    getenvOpt (cufile_config_ctor mode jvar path lines env1).2 jvar = some v ∧
    getenvOpt (cufile_config_ctor mode jvar path lines env2).2 jvar = some path := by
  unfold cufile_config_ctor cufile_config_rewrite
  rw [hm]
  simp only [if_true]
  have hne : lines.isEmpty = false := by
    cases lines with
    | nil => exact absurd rfl h3
    | cons l ls => rfl
  rw [cufile_config_loop_env, cufile_config_loop_env, hne, h1, h2]
  exact ⟨rfl, rfl⟩

/-- Witness for C7 at a concrete one-line config file, with the variable
externally set in the first environment and unset in the second. -/
theorem config_env_first_writer_wins_witness :
    getenvOpt (cufile_config_ctor .optional "CUFILE_ENV_PATH_JSON" "/tmp/cudf/cufile.json"
        ["\"compat_mode\": true,"] [("CUFILE_ENV_PATH_JSON", "/etc/custom.json")]).2
      "CUFILE_ENV_PATH_JSON" = some "/etc/custom.json" ∧
    getenvOpt (cufile_config_ctor .optional "CUFILE_ENV_PATH_JSON" "/tmp/cudf/cufile.json"
        ["\"compat_mode\": true,"] []).2 "CUFILE_ENV_PATH_JSON" =
      some "/tmp/cudf/cufile.json" :=
  config_env_first_writer_wins .optional "CUFILE_ENV_PATH_JSON" "/tmp/cudf/cufile.json"
    "/etc/custom.json" ["\"compat_mode\": true,"]
    [("CUFILE_ENV_PATH_JSON", "/etc/custom.json")] [] rfl rfl rfl (by decide)

/-- Once a shim state is stored, every later `instance()` call reports
the same check result and the stored state never changes. -/
theorem run_instance_calls_stored (s : ShimFields) :
    ∀ ps : List InitParams,
      (run_instance_calls ps (some s)).1 =
        ps.map (fun _ => cufile_shim_instance_check s) ∧
      (run_instance_calls ps (some s)).2 = some s := by
  intro ps
  induction ps with
  | nil => exact ⟨rfl, rfl⟩
  | cons p rest ih => simp [run_instance_calls, ih.1, ih.2]

/-- C6: when the first `instance()` call constructs the shim and that
construction captures an error, the invalidity is permanent: every call
in the sequence (whatever loader outcomes later calls would have seen)
raises an error whose message is the empty string prepended to the
originally captured cause, and the stored singleton remains the state
built from the first call's outcomes — construction is never
re-attempted. -/
theorem shim_invalid_permanent (p0 : InitParams) (ps : List InitParams) (cause : String)
    (h : (cufile_shim_construct p0).init_error = some cause) :
    (run_instance_calls (p0 :: ps) none).1 =
      (p0 :: ps).map (fun _ => Except.error ("" ++ cause)) ∧
    (run_instance_calls (p0 :: ps) none).2 = some (cufile_shim_construct p0) := by
  have hc : cufile_shim_instance_check (cufile_shim_construct p0) =
      Except.error ("" ++ cause) := by
    unfold cufile_shim_instance_check
    rw [h]
  have hrest := run_instance_calls_stored (cufile_shim_construct p0) ps
  simp [run_instance_calls, hc, hrest.1, hrest.2]

/-- Loader outcomes under which `dlopen` fails and no symbol resolves:
the shim construction captures the first symbol-resolution error. -/
def p_fail : InitParams :=
  { dlopen_ret := none, dlsym_fn := fun _ _ => none, driver_open_ok := true }

/-- Loader outcomes under which the library loads, every symbol resolves
and the driver initializes. -/
def p_good : InitParams :=
  { dlopen_ret := some 1, dlsym_fn := fun _ _ => some 2, driver_open_ok := true }

/-- Witness for C6: first call fails to resolve the first symbol; the
second call would succeed, yet both calls report the captured cause and
the stored state stays the one built at the first call. -/
theorem shim_invalid_permanent_witness :
    (run_instance_calls [p_fail, p_good] none).1 =
      [Except.error ("" ++ "could not find cuFile cuFileDriverOpen symbol"),
       Except.error ("" ++ "could not find cuFile cuFileDriverOpen symbol")] ∧
    (run_instance_calls [p_fail, p_good] none).2 = some (cufile_shim_construct p_fail) :=
  shim_invalid_permanent p_fail [p_good] "could not find cuFile cuFileDriverOpen symbol" rfl

/-- Loader outcomes under which the library loads and every symbol
resolves but the driver-open call reports failure. -/
def p_driver_fail : InitParams :=
  { dlopen_ret := some 1, dlsym_fn := fun _ _ => some 2, driver_open_ok := false }

/-- C10 counterexample: the claim says that when construction failed the
driver-close pointer and library handle used by the destructor are null.
When construction fails at the driver-open call, after all symbols
resolved, the shim is invalid yet the destructor invokes a non-null
driver-close pointer on a non-null library handle. -/
theorem dtor_nonnull_counterexample :
    (cufile_shim_construct p_driver_fail).is_valid = false ∧
    cufile_shim_dtor (cufile_shim_construct p_driver_fail) =
      { driver_close_called := some 2, dlclose_arg := some 1 } ∧
    (cufile_shim_dtor (cufile_shim_construct p_driver_fail)).driver_close_called ≠ none := by
  refine ⟨rfl, rfl, ?_⟩
  decide

/-- C10 amended: the destructor reads the stored driver-close pointer
and library handle unconditionally — it performs no validity check — and
when construction failed because the library could not be loaded (and no
symbol resolves through the null handle), both of them are null. -/
theorem dtor_unconditional_amended (s : ShimFields) (p : InitParams)
    (h1 : p.dlopen_ret = none) (h2 : p.dlsym_fn none "cuFileDriverOpen" = none) :
    cufile_shim_dtor s =
      { driver_close_called := s.driver_close, dlclose_arg := s.cf_lib } ∧
    (cufile_shim_construct p).is_valid = false ∧
    cufile_shim_dtor (cufile_shim_construct p) =
      { driver_close_called := none, dlclose_arg := none } := by
  refine ⟨rfl, ?_, ?_⟩ <;>
    simp [cufile_shim_construct, cufile_shim_dtor, h1, h2, ShimFields.is_valid]

/-- Witness for the amended C10 theorem: the failed-load outcomes
`p_fail` leave the shim invalid with a destructor acting on null
pointers. -/
theorem dtor_unconditional_amended_witness :
    cufile_shim_dtor {} = { driver_close_called := none, dlclose_arg := none } ∧
    (cufile_shim_construct p_fail).is_valid = false ∧
    cufile_shim_dtor (cufile_shim_construct p_fail) =
      { driver_close_called := none, dlclose_arg := none } :=
  dtor_unconditional_amended {} p_fail rfl rfl

/-- C3: for both factory functions: with the policy off the factory
returns empty without touching the shim; with the policy enabled and a
failing engine construction the error is rethrown exactly when the mode
is required and swallowed (empty returned) when optional; in particular
with an invalid shim the engine constructor always raises the captured
cause, so a required policy with an invalid capability always raises and
an optional one always returns empty without raising. -/
theorem factory_policy_behavior (mode : PolicyMode) (e cause : String)
    (file_setup : Except String Unit) :
    make_cufile_input mode (Except.error e) =
      (match mode with
       | .off => (Except.ok none, false)
       | .optional => (Except.ok none, true)
       | .required => (Except.error e, true)) ∧
    make_cufile_output mode (Except.error e) =
      (match mode with
       | .off => (Except.ok none, false)
       | .optional => (Except.ok none, true)
       | .required => (Except.error e, true)) ∧
    cufile_engine_construct { init_error := some cause } file_setup =
      Except.error ("" ++ cause) ∧
    make_cufile_input mode (cufile_engine_construct { init_error := some cause } file_setup) =
      (match mode with
       | .off => (Except.ok none, false)
       | .optional => (Except.ok none, true)
       | .required => (Except.error ("" ++ cause), true)) ∧
    make_cufile_output mode (cufile_engine_construct { init_error := some cause } file_setup) =
      (match mode with
       | .off => (Except.ok none, false)
       | .optional => (Except.ok none, true)
       | .required => (Except.error ("" ++ cause), true)) := by
  cases mode <;>
    simp [make_cufile_input, make_cufile_output, cufile_engine_construct,
      cufile_shim_instance_check, PolicyMode.is_enabled, PolicyMode.is_required]

end Cudf
